import Mathlib

/-!
Verification development for the tuition-agent repository.

The agent (`src/agent/agent.js`) watches a Firestore collection of chat
messages, filters newly added unprocessed user messages, marks them
processed, calls the Gemini model (optionally running a tool loop against
an external tuition HTTP backend), and appends the reply to the log.

We embed the agent's per-entry handler as a pure function producing a
trace of observable events: the processed-flag write, model calls,
outbound HTTP requests, and log appends. The model inference service and
the tuition backend are oracles carried in an environment record; model
calls may fail (`Except`), mirroring a thrown exception in the source.
-/

namespace TuitionAgent

/-- A JavaScript value as it appears in tool results: the backend's
response body (`raw`), the error payloads built by `executeTool`
(`errorObj msg` for `\x7b error: msg \x7d`), and the wrapper
`resultObj v` for `\x7b result: v \x7d` built in the tool loop. -/
inductive JsValue where
  | str (s : String)
  | num (n : Int)
  | boolean (b : Bool)
  | errorObj (msg : String)
  | resultObj (v : JsValue)
  | raw (tag : String)
  deriving DecidableEq, Repr

/-- Arguments of a tool call as sent by the model. A missing field is
`none` (JavaScript `undefined`). Amounts are modelled as integers; no
claim involves numeric arithmetic on them. -/
structure ToolCallArgs where
  student_id : Option String := none
  amount : Option Int := none
  deriving DecidableEq, Repr

/-- JavaScript template-literal interpolation of a possibly-undefined
string: `undefined` interpolates to the literal string "undefined". -/
def jsStringOfOpt : Option String → String
  | none => "undefined"
  | some s => s

/-- An outbound HTTP request to the tuition backend:
`GET (API_URL)/tuition/(student_id)` or `POST (API_URL)/tuition/pay`
with a JSON body carrying `student_id` and `amount`. -/
inductive HttpRequest where
  | get (url : String)
  | post (url : String) (student_id : Option String) (amount : Option Int)
  deriving DecidableEq, Repr

/-- Outcome of an HTTP request as seen through axios: a resolved
response with a `data` body, or a rejection (non-2xx, network error,
timeout) carrying an error message. -/
inductive HttpOutcome where
  | ok (data : JsValue)
  | err (message : String)
  deriving DecidableEq, Repr

/-- Embedding of `executeTool(name, args)` from src/agent/agent.js
(lines 74-97). Returns the tool result together with the list of
outbound HTTP requests issued. The axios rejection is caught inside,
so the function returns an error payload rather than raising. -/
def executeTool (apiUrl : String) (backend : HttpRequest → HttpOutcome)
    (name : String) (args : ToolCallArgs) : JsValue × List HttpRequest :=
  if name = "check_tuition" then
    let req := HttpRequest.get (apiUrl ++ "/tuition/" ++ jsStringOfOpt args.student_id)
    match backend req with
    | .ok data => (data, [req])
    | .err message => (JsValue.errorObj ("API Call Failed: " ++ message), [req])
  else if name = "pay_tuition" then
    let req := HttpRequest.post (apiUrl ++ "/tuition/pay") args.student_id args.amount
    match backend req with
    | .ok data => (data, [req])
    | .err message => (JsValue.errorObj ("API Call Failed: " ++ message), [req])
  else
    (JsValue.errorObj "Unknown tool", [])

/-- A function call requested by the model. -/
structure FunctionCall where
  name : String
  args : ToolCallArgs
  deriving DecidableEq, Repr

/-- A function-response payload sent back to the model:
`\x7b name, response \x7d` where `response` is `\x7b result: r \x7d`. -/
structure FunctionResponse where
  name : String
  response : JsValue
  deriving DecidableEq, Repr

/-- One part of a model content turn: text, a function call, or a
function response. Absent fields are `none`. -/
structure Part where
  text : Option String := none
  functionCall : Option FunctionCall := none
  functionResponse : Option FunctionResponse := none
  deriving DecidableEq, Repr

/-- A candidate's content; its `parts` field may be absent. -/
structure Content where
  parts : Option (List Part) := none
  deriving DecidableEq, Repr

/-- One response candidate; its `content` field may be absent. -/
structure Candidate where
  content : Option Content := none
  deriving DecidableEq, Repr

/-- A model response: the `candidates` array (possibly absent) and the
SDK's `.text` convenience accessor (possibly undefined). -/
structure ModelResponse where
  candidates : Option (List Candidate) := none
  text : Option String := none
  deriving DecidableEq, Repr

/-- One conversation turn in a `generateContent` request. -/
structure Turn where
  role : String
  parts : List Part
  deriving DecidableEq, Repr

/-- A declared parameter in a tool descriptor. -/
structure ParamDecl where
  name : String
  type : String
  description : String
  deriving DecidableEq, Repr

/-- A tool descriptor from the static catalog. -/
structure ToolDecl where
  name : String
  description : String
  properties : List ParamDecl
  required : List String
  deriving DecidableEq, Repr

/-- Embedding of `checkTuitionTool` (agent.js lines 37-50). -/
def checkTuitionTool : ToolDecl :=
  { name := "check_tuition",
    description := "Check the outstanding tuition fee for a student.",
    properties := [{ name := "student_id", type := "STRING",
                     description := "The ID of the student to check." }],
    required := ["student_id"] }

/-- Embedding of `payTuitionTool` (agent.js lines 52-69). -/
def payTuitionTool : ToolDecl :=
  { name := "pay_tuition",
    description := "Process a tuition payment for a student.",
    properties := [{ name := "student_id", type := "STRING",
                     description := "The ID of the student paying." },
                   { name := "amount", type := "NUMBER",
                     description := "The amount to pay." }],
    required := ["student_id", "amount"] }

/-- A `generateContent` request: model name, conversation turns, system
instruction, and the tool declarations passed in the config. -/
structure GenRequest where
  model : String
  contents : List Turn
  systemInstruction : String
  tools : List ToolDecl
  deriving DecidableEq, Repr

def geminiModel : String := "gemini-2.5-flash-preview-09-2025"

/-- The fixed system instruction string from agent.js lines 125-128. -/
def systemInstruction : String :=
  "You are a helpful tuition assistant for a Tuition Centre. \n            You can help check outstanding fees and process payments.\n            ALWAYS ask for the 'student_id' if it is not provided before using a tool.\n            Use the provided tools 'check_tuition' and 'pay_tuition' when necessary."

/-- A timestamp value written to the log: either a `new Date()` taken
from the writing process's own clock, or the log service's
server-assigned timestamp sentinel (`serverTimestamp()`, used by the
presentation client but not by the agent). -/
inductive StampValue where
  | fromClientClock (t : Nat)
  | serverAssigned
  deriving DecidableEq, Repr

/-- A document appended to the `chats` collection by the agent. -/
structure NewEntry where
  text : String
  role : String
  createdAt : StampValue
  relatedToMessageId : Option String := none
  deriving DecidableEq, Repr

/-- Observable events of one handler run, in order: the
`processed: true` update, model calls, outbound tool HTTP requests, and
log appends. -/
inductive Event where
  | markProcessed (docId : String)
  | modelCall (req : GenRequest)
  | toolCall (req : HttpRequest)
  | logAdd (entry : NewEntry)
  deriving DecidableEq, Repr

/-- The environment of one handler run: backend and model oracles, the
configured API base URL, and the value the process clock would produce
for `new Date()`. A model call may fail (`Except.error`), mirroring a
thrown exception. -/
structure Env where
  apiUrl : String
  backend : HttpRequest → HttpOutcome
  generate : GenRequest → Except String ModelResponse
  now : Nat

/-- The data of an observed chat document; `processed` may be absent. -/
structure MessageData where
  text : String
  role : String
  processed : Option Bool := none
  deriving DecidableEq, Repr

/-- JavaScript truthiness of the possibly-absent `processed` flag. -/
def jsTruthy : Option Bool → Bool
  | none => false
  | some b => b

/-- Embedding of the guard
`candidates && candidates[0].content && candidates[0].content.parts`
(agent.js lines 144-145). An absent `candidates`, absent `content` or
absent `parts` makes the guard false (`ok none`); an empty candidates
array is truthy in JavaScript, so `candidates[0].content` then throws
a TypeError (`error`). -/
def getParts (r : ModelResponse) : Except String (Option (List Part)) :=
  match r.candidates with
  | none => .ok none
  | some [] => .error "TypeError: cannot read properties of undefined"
  | some (c :: _) =>
    match c.content with
    | none => .ok none
    | some content => .ok content.parts

/-- The first `generateContent` request (agent.js lines 131-138): the
user text as the sole turn, the system instruction, and the catalog. -/
def firstRequest (userText : String) : GenRequest :=
  { model := geminiModel,
    contents := [{ role := "user", parts := [{ text := some userText }] }],
    systemInstruction := systemInstruction,
    tools := [checkTuitionTool, payTuitionTool] }

/-- The second `generateContent` request (agent.js lines 165-173): user
text, the model's first-response parts, and the tool outputs; the
config carries only the system instruction, no tools. -/
def secondRequest (userText : String) (parts : List Part)
    (outs : List Part) : GenRequest :=
  { model := geminiModel,
    contents := [{ role := "user", parts := [{ text := some userText }] },
                 { role := "model", parts := parts },
                 { role := "function", parts := outs }],
    systemInstruction := systemInstruction,
    tools := [] }

/-- The function-response part built for one executed call (agent.js
lines 156-161): `\x7b functionResponse: \x7b name, response:
\x7b result \x7d \x7d \x7d`, tagged with the originating tool name. -/
def toolOutputPart (env : Env) (c : FunctionCall) : Part :=
  { functionResponse := some {
      name := c.name,
      response := JsValue.resultObj (executeTool env.apiUrl env.backend c.name c.args).1 } }

/-- The HTTP-request events issued while executing one call. -/
def toolReqEvents (env : Env) (c : FunctionCall) : List Event :=
  ((executeTool env.apiUrl env.backend c.name c.args).2).map Event.toolCall

/-- The sequential tool loop (agent.js lines 153-162): for each
requested call in order, run `executeTool` and collect one tagged
function-response part. Returns the HTTP-request events and the
collected tool-output parts. -/
def runToolLoop (env : Env) : List FunctionCall → List Event × List Part
  | [] => ([], [])
  | call :: rest =>
    let restRun := runToolLoop env rest
    (toolReqEvents env call ++ restRun.1, toolOutputPart env call :: restRun.2)

def toolEvents (env : Env) (calls : List FunctionCall) : List Event :=
  (runToolLoop env calls).1

def toolOutputs (env : Env) (calls : List FunctionCall) : List Part :=
  (runToolLoop env calls).2

def apologyText : String := "I'm sorry, I encountered an error processing your request."

/-- The fallback entry written in the catch block (agent.js lines
195-199): apology text, model role, `new Date()` timestamp, and no
`relatedToMessageId`. -/
def apologyEntry (now : Nat) : NewEntry :=
  { text := apologyText, role := "model",
    createdAt := .fromClientClock now, relatedToMessageId := none }

/-- The final write step (agent.js lines 183-191):
`if (finalResponseText)` — a falsy reply (undefined or empty string)
writes nothing; otherwise append the reply with `new Date()` and the
back-reference to the originating document. -/
def replyWrite (env : Env) (docId : String) : Option String → List Event
  | none => []
  | some s =>
    if s = "" then []
    else [Event.logAdd { text := s, role := "model",
                         createdAt := .fromClientClock env.now,
                         relatedToMessageId := some docId }]

/-- Continuation after the second model call: a thrown call reaches the
catch block (apology), a successful one flows into the final write. -/
def afterSecond (env : Env) (docId : String) : Except String ModelResponse → List Event
  | .error _ => [Event.logAdd (apologyEntry env.now)]
  | .ok second => replyWrite env docId second.text

/-- Continuation after the parts guard (agent.js lines 145-191): a
false guard leaves `finalResponseText` empty so nothing is written;
function calls trigger the tool loop and the second model call;
otherwise the first response's own text is the final reply. -/
def withParts (env : Env) (docId : String) (userText : String)
    (r : ModelResponse) : Option (List Part) → List Event
  | none => []
  | some parts =>
    let functionCalls := parts.filterMap Part.functionCall
    if functionCalls.length > 0 then
      toolEvents env functionCalls ++
      Event.modelCall (secondRequest userText parts (toolOutputs env functionCalls)) ::
      afterSecond env docId
        (env.generate (secondRequest userText parts (toolOutputs env functionCalls)))
    else
      replyWrite env docId r.text

/-- Continuation on the guard's own outcome: the TypeError thrown on an
empty candidates array reaches the catch block (apology). -/
def afterGuard (env : Env) (docId : String) (userText : String)
    (r : ModelResponse) : Except String (Option (List Part)) → List Event
  | .error _ => [Event.logAdd (apologyEntry env.now)]
  | .ok op => withParts env docId userText r op

/-- Continuation after the first model call: a thrown call reaches the
catch block (apology), a successful one is inspected for parts. -/
def afterFirst (env : Env) (docId : String) (userText : String) :
    Except String ModelResponse → List Event
  | .error _ => [Event.logAdd (apologyEntry env.now)]
  | .ok r => afterGuard env docId userText r (getParts r)

/-- Embedding of the body of the `added`-change callback inside
`setupFirestoreListener` (agent.js lines 107-201), as the trace of
events it performs for one observed document. -/
def handleAdded (env : Env) (docId : String) (m : MessageData) : List Event :=
  if m.role = "user" ∧ ¬ jsTruthy m.processed then
    Event.markProcessed docId ::
    Event.modelCall (firstRequest m.text) ::
    afterFirst env docId m.text (env.generate (firstRequest m.text))
  else []

/-- The change type of a snapshot document change. -/
inductive ChangeType where
  | added | modified | removed
  deriving DecidableEq, Repr

/-- The listener reacts only to `added` changes (agent.js line 109). -/
def handleChange (env : Env) (ct : ChangeType) (docId : String)
    (m : MessageData) : List Event :=
  match ct with
  | .added => handleAdded env docId m
  | _ => []

/-! ### Example environments used by witnesses -/

/-- A first response with text and no function calls. -/
def okTextResponse (t : String) : ModelResponse :=
  { candidates := some [{ content := some { parts := some [{ text := some t }] } }],
    text := some t }

/-- Environment whose model always answers with plain text "hello". -/
def envEcho : Env :=
  { apiUrl := "http://api",
    backend := fun _ => .ok (JsValue.raw "data"),
    generate := fun _ => .ok (okTextResponse "hello"),
    now := 0 }

/-- A part requesting `check_tuition(student_id = "S1")`. -/
def fcPart : Part :=
  { functionCall := some { name := "check_tuition", args := { student_id := some "S1" } } }

/-- A first response whose sole part is the `check_tuition` call. -/
def fcResponse : ModelResponse :=
  { candidates := some [{ content := some { parts := some [fcPart] } }],
    text := none }

/-- Environment whose model requests a `check_tuition` call on the
first (tool-carrying) request and answers "done" on the second. -/
def envTool : Env :=
  { apiUrl := "http://api",
    backend := fun _ => .ok (JsValue.raw "balance"),
    generate := fun req =>
      if req.tools.length > 0 then .ok fcResponse
      else .ok (okTextResponse "done"),
    now := 0 }

/-- Environment like `envEcho` but answering "hi" with clock value 5. -/
def envClock5 : Env :=
  { apiUrl := "http://api",
    backend := fun _ => .ok (JsValue.raw "data"),
    generate := fun _ => .ok (okTextResponse "hi"),
    now := 5 }

/-- Environment whose model call always throws. -/
def envThrow : Env :=
  { apiUrl := "http://api",
    backend := fun _ => .ok (JsValue.raw "data"),
    generate := fun _ => .error "model call failed",
    now := 0 }

/-- Environment whose model returns a response with no candidates. -/
def envNoCandidates : Env :=
  { apiUrl := "http://api",
    backend := fun _ => .ok (JsValue.raw "data"),
    generate := fun _ => .ok { candidates := none, text := some "ignored" },
    now := 0 }

/-- Environment whose model returns an empty parts array and an
undefined `.text` accessor. -/
def envFalsyText : Env :=
  { apiUrl := "http://api",
    backend := fun _ => .ok (JsValue.raw "data"),
    generate := fun _ =>
      .ok { candidates := some [{ content := some { parts := some [] } }], text := none },
    now := 0 }

/-- An unprocessed user message used by witnesses. -/
def userMsg : MessageData := { text := "what is my balance", role := "user", processed := some false }

/-! ### Helper lemmas -/

theorem handleAdded_of_not_qualifying (env : Env) (docId : String) (m : MessageData)
    (h : ¬ (m.role = "user" ∧ ¬ jsTruthy m.processed)) :
    handleAdded env docId m = [] := by
  rw [handleAdded, if_neg h]

theorem handleAdded_qualifying (env : Env) (docId : String) (m : MessageData)
    (h : m.role = "user" ∧ ¬ jsTruthy m.processed) :
    handleAdded env docId m =
      Event.markProcessed docId ::
      Event.modelCall (firstRequest m.text) ::
      afterFirst env docId m.text (env.generate (firstRequest m.text)) := by
  rw [handleAdded, if_pos h]

/-- Unfolding of the tool path of the handler. -/
theorem handleAdded_toolPath (env : Env) (docId : String) (m : MessageData)
    (r : ModelResponse) (parts : List Part)
    (hq : m.role = "user" ∧ ¬ jsTruthy m.processed)
    (h1 : env.generate (firstRequest m.text) = .ok r)
    (hp : getParts r = .ok (some parts))
    (hfc : parts.filterMap Part.functionCall ≠ []) :
    handleAdded env docId m =
      Event.markProcessed docId ::
      Event.modelCall (firstRequest m.text) ::
      toolEvents env (parts.filterMap Part.functionCall) ++
      Event.modelCall (secondRequest m.text parts
        (toolOutputs env (parts.filterMap Part.functionCall))) ::
      afterSecond env docId (env.generate (secondRequest m.text parts
        (toolOutputs env (parts.filterMap Part.functionCall)))) := by
  rw [handleAdded_qualifying env docId m hq, h1]
  have hlen : 0 < (parts.filterMap Part.functionCall).length :=
    List.length_pos.mpr hfc
  simp [afterFirst, hp, afterGuard, withParts, if_pos hlen]

/-- Unfolding of the no-tool path of the handler. -/
theorem handleAdded_noToolPath (env : Env) (docId : String) (m : MessageData)
    (r : ModelResponse) (parts : List Part)
    (hq : m.role = "user" ∧ ¬ jsTruthy m.processed)
    (h1 : env.generate (firstRequest m.text) = .ok r)
    (hp : getParts r = .ok (some parts))
    (hfc : parts.filterMap Part.functionCall = []) :
    handleAdded env docId m =
      Event.markProcessed docId ::
      Event.modelCall (firstRequest m.text) ::
      replyWrite env docId r.text := by
  rw [handleAdded_qualifying env docId m hq, h1]
  simp [afterFirst, hp, afterGuard, withParts, hfc]

/-- The tool loop issues, in order, exactly the requests of each call
and collects one tagged function-response part per call. -/
theorem runToolLoop_spec (env : Env) (calls : List FunctionCall) :
    toolEvents env calls = (calls.map (toolReqEvents env)).flatten
  ∧ toolOutputs env calls = calls.map (toolOutputPart env) := by
  induction calls with
  | nil => exact ⟨rfl, rfl⟩
  | cons c rest ih =>
    constructor
    · show (runToolLoop env (c :: rest)).1 = _
      rw [runToolLoop]
      simp only [List.map_cons, List.flatten]
      exact congrArg _ ih.1
    · show (runToolLoop env (c :: rest)).2 = _
      rw [runToolLoop]
      simp only [List.map_cons]
      exact congrArg _ ih.2

/-! ### Claim C7 -/

/-- Claim C7: for every name other than check_tuition and pay_tuition
and every argument mapping, the Tool Executor returns exactly the
payload `\x7b error: Unknown tool \x7d` and issues no outbound call to
the tuition backend. -/
theorem c7_unknown_tool (apiUrl : String) (backend : HttpRequest → HttpOutcome)
    (toolName : String) (args : ToolCallArgs)
    (h1 : toolName ≠ "check_tuition") (h2 : toolName ≠ "pay_tuition") :
    executeTool apiUrl backend toolName args = (JsValue.errorObj "Unknown tool", []) := by
  rw [executeTool, if_neg h1, if_neg h2]

theorem c7_unknown_tool_witness :
    executeTool "http://api" (fun _ => HttpOutcome.ok (JsValue.raw "data"))
      "refund_tuition" { student_id := some "S1" } =
      (JsValue.errorObj "Unknown tool", []) :=
  c7_unknown_tool "http://api" (fun _ => HttpOutcome.ok (JsValue.raw "data"))
    "refund_tuition" { student_id := some "S1" } (by decide) (by decide)

/-! ### Claim C10 -/

/-- Claim C10: the Tool Executor never validates arguments against the
catalog's required-parameter lists: a recognized tool name always
triggers the outbound backend call, whatever the arguments; with an
absent student_id, check_tuition issues a GET whose URL path segment is
the literal string "undefined". -/
theorem c10_no_argument_validation (apiUrl : String)
    (backend : HttpRequest → HttpOutcome) (args : ToolCallArgs) :
    (executeTool apiUrl backend "check_tuition" args).2 =
      [HttpRequest.get (apiUrl ++ "/tuition/" ++ jsStringOfOpt args.student_id)]
  ∧ (args.student_id = none →
      (executeTool apiUrl backend "check_tuition" args).2 =
        [HttpRequest.get (apiUrl ++ "/tuition/" ++ "undefined")])
  ∧ (executeTool apiUrl backend "pay_tuition" args).2 =
      [HttpRequest.post (apiUrl ++ "/tuition/pay") args.student_id args.amount]
  ∧ checkTuitionTool.required = ["student_id"]
  ∧ payTuitionTool.required = ["student_id", "amount"] := by
  have hcheck : (executeTool apiUrl backend "check_tuition" args).2 =
      [HttpRequest.get (apiUrl ++ "/tuition/" ++ jsStringOfOpt args.student_id)] := by
    cases hb : backend (HttpRequest.get (apiUrl ++ "/tuition/" ++ jsStringOfOpt args.student_id)) with
    | ok d => simp [executeTool, hb]
    | err msg => simp [executeTool, hb]
  refine ⟨hcheck, fun hnone => ?_, ?_, rfl, rfl⟩
  · rw [hcheck, hnone]
    rfl
  · cases hb : backend (HttpRequest.post (apiUrl ++ "/tuition/pay") args.student_id args.amount) with
    | ok d => simp [executeTool, hb]
    | err msg => simp [executeTool, hb]

theorem c10_no_argument_validation_witness :
    (executeTool "http://api" (fun _ => HttpOutcome.ok (JsValue.raw "data"))
      "check_tuition" { student_id := none }).2 =
      [HttpRequest.get ("http://api" ++ "/tuition/" ++ "undefined")] :=
  (c10_no_argument_validation "http://api" (fun _ => HttpOutcome.ok (JsValue.raw "data"))
    { student_id := none }).2.1 rfl

/-! ### Claim C6 -/

/-- Claim C6: on any transport or backend failure the Tool Executor
returns the payload `\x7b error: API Call Failed: message \x7d` instead
of raising (its type raises nothing), and the Orchestrator still issues
the second model call carrying the collected tool outputs as ordinary
function-response content. -/
theorem c6_backend_failure_contained (apiUrl : String)
    (backend : HttpRequest → HttpOutcome) (args : ToolCallArgs) (msg : String) :
    (backend (HttpRequest.get (apiUrl ++ "/tuition/" ++ jsStringOfOpt args.student_id)) = .err msg →
      executeTool apiUrl backend "check_tuition" args =
        (JsValue.errorObj ("API Call Failed: " ++ msg),
         [HttpRequest.get (apiUrl ++ "/tuition/" ++ jsStringOfOpt args.student_id)]))
  ∧ (backend (HttpRequest.post (apiUrl ++ "/tuition/pay") args.student_id args.amount) = .err msg →
      executeTool apiUrl backend "pay_tuition" args =
        (JsValue.errorObj ("API Call Failed: " ++ msg),
         [HttpRequest.post (apiUrl ++ "/tuition/pay") args.student_id args.amount]))
  ∧ (∀ (env : Env) (docId : String) (m : MessageData) (r : ModelResponse) (parts : List Part),
      m.role = "user" ∧ ¬ jsTruthy m.processed →
      env.generate (firstRequest m.text) = .ok r →
      getParts r = .ok (some parts) →
      parts.filterMap Part.functionCall ≠ [] →
      Event.modelCall (secondRequest m.text parts
        (toolOutputs env (parts.filterMap Part.functionCall))) ∈ handleAdded env docId m) := by
  refine ⟨fun hb => ?_, fun hb => ?_, ?_⟩
  · simp [executeTool, hb]
  · simp [executeTool, hb]
  · intro env docId m r parts hq h1 hp hfc
    rw [handleAdded_toolPath env docId m r parts hq h1 hp hfc]
    simp

theorem c6_backend_failure_contained_witness :
    executeTool "http://api" (fun _ => HttpOutcome.err "network down") "pay_tuition"
      { student_id := some "S1", amount := some 100 } =
      (JsValue.errorObj ("API Call Failed: " ++ "network down"),
       [HttpRequest.post ("http://api" ++ "/tuition/pay") (some "S1") (some 100)]) :=
  (c6_backend_failure_contained "http://api" (fun _ => HttpOutcome.err "network down")
    { student_id := some "S1", amount := some 100 } "network down").2.1 rfl

/-! ### Claim C1 -/

/-- Claim C1: the bridge invokes the model only for an added entry
whose role is user and whose processed flag is falsy, and for every
such qualifying entry the processed-true write is the very first event
of the run, before any model call. -/
theorem c1_filter_and_mark_before_model (env : Env) (docId : String) (m : MessageData) :
    (¬ (m.role = "user" ∧ ¬ jsTruthy m.processed) → handleAdded env docId m = [])
  ∧ ((m.role = "user" ∧ ¬ jsTruthy m.processed) →
      ∃ rest, handleAdded env docId m = Event.markProcessed docId :: rest)
  ∧ (∀ req : GenRequest, Event.modelCall req ∈ handleAdded env docId m →
      m.role = "user" ∧ ¬ jsTruthy m.processed) := by
  by_cases h : m.role = "user" ∧ ¬ jsTruthy m.processed
  · exact ⟨fun hn => absurd h hn,
      fun _ => ⟨_, handleAdded_qualifying env docId m h⟩,
      fun _ _ => h⟩
  · refine ⟨fun _ => handleAdded_of_not_qualifying env docId m h,
      fun hq => absurd hq h, fun req hreq => ?_⟩
    rw [handleAdded_of_not_qualifying env docId m h] at hreq
    exact absurd hreq (List.not_mem_nil _)

theorem c1_filter_and_mark_before_model_witness :
    ∃ rest, handleAdded envEcho "d1" userMsg = Event.markProcessed "d1" :: rest :=
  (c1_filter_and_mark_before_model envEcho "d1" userMsg).2.1 (by decide)

/-! ### Claim C3 -/

/-- Claim C3: on the no-tool path with first-response text t (present
and non-empty, as required for a reply to exist at all), the bridge
appends one model-role entry whose text is t and whose
relatedToMessageId is the originating document id. -/
theorem c3_no_tool_reply (env : Env) (docId : String) (m : MessageData)
    (r : ModelResponse) (parts : List Part) (t : String)
    (hq : m.role = "user" ∧ ¬ jsTruthy m.processed)
    (h1 : env.generate (firstRequest m.text) = .ok r)
    (hp : getParts r = .ok (some parts))
    (hfc : parts.filterMap Part.functionCall = [])
    (ht : r.text = some t) (hne : t ≠ "") :
    handleAdded env docId m =
      [Event.markProcessed docId,
       Event.modelCall (firstRequest m.text),
       Event.logAdd { text := t, role := "model",
                      createdAt := StampValue.fromClientClock env.now,
                      relatedToMessageId := some docId }] := by
  rw [handleAdded_noToolPath env docId m r parts hq h1 hp hfc, ht]
  simp [replyWrite, hne]

theorem c3_no_tool_reply_witness :
    handleAdded envEcho "d1" userMsg =
      [Event.markProcessed "d1",
       Event.modelCall (firstRequest userMsg.text),
       Event.logAdd { text := "hello", role := "model",
                      createdAt := StampValue.fromClientClock 0,
                      relatedToMessageId := some "d1" }] :=
  c3_no_tool_reply envEcho "d1" userMsg (okTextResponse "hello")
    [{ text := some "hello" }] "hello" (by decide) rfl rfl rfl rfl (by decide)

/-! ### Claim C4 -/

/-- Claim C4: every exception caught during orchestration (a thrown
first model call, the TypeError of the empty-candidates guard, or a
thrown second model call) produces exactly one fixed fallback model
entry with the apology text, carrying no relatedToMessageId. -/
theorem c4_fallback_apology (env : Env) (docId : String) (m : MessageData)
    (hq : m.role = "user" ∧ ¬ jsTruthy m.processed) :
    (∀ e, env.generate (firstRequest m.text) = .error e →
      handleAdded env docId m =
        [Event.markProcessed docId, Event.modelCall (firstRequest m.text),
         Event.logAdd (apologyEntry env.now)])
  ∧ (∀ r e, env.generate (firstRequest m.text) = .ok r → getParts r = .error e →
      handleAdded env docId m =
        [Event.markProcessed docId, Event.modelCall (firstRequest m.text),
         Event.logAdd (apologyEntry env.now)])
  ∧ (∀ r parts e, env.generate (firstRequest m.text) = .ok r →
      getParts r = .ok (some parts) →
      parts.filterMap Part.functionCall ≠ [] →
      env.generate (secondRequest m.text parts
        (toolOutputs env (parts.filterMap Part.functionCall))) = .error e →
      handleAdded env docId m =
        Event.markProcessed docId ::
        Event.modelCall (firstRequest m.text) ::
        toolEvents env (parts.filterMap Part.functionCall) ++
        [Event.modelCall (secondRequest m.text parts
           (toolOutputs env (parts.filterMap Part.functionCall))),
         Event.logAdd (apologyEntry env.now)])
  ∧ (apologyEntry env.now).text = apologyText
  ∧ (apologyEntry env.now).relatedToMessageId = none := by
  refine ⟨fun e he => ?_, fun r e h1 hp => ?_, fun r parts e h1 hp hfc h2 => ?_, rfl, rfl⟩
  · rw [handleAdded_qualifying env docId m hq, he]
    rfl
  · rw [handleAdded_qualifying env docId m hq, h1]
    simp [afterFirst, hp, afterGuard]
  · rw [handleAdded_toolPath env docId m r parts hq h1 hp hfc, h2]
    simp [afterSecond]

theorem c4_fallback_apology_witness :
    handleAdded envThrow "d1" userMsg =
      [Event.markProcessed "d1", Event.modelCall (firstRequest userMsg.text),
       Event.logAdd (apologyEntry 0)] :=
  (c4_fallback_apology envThrow "d1" userMsg (by decide)).1 "model call failed" rfl

/-! ### Claim C5 -/

/-- Claim C5: when the first response has no retrievable content
structure (absent candidates, absent content, or absent parts), the
run ends after the first model call with no log append at all — no
reply and no fallback apology. The second conjunct characterises the
guard-false outcome as exactly those three absent-field cases. -/
theorem c5_missing_structure_drops (env : Env) (docId : String) (m : MessageData)
    (r : ModelResponse)
    (hq : m.role = "user" ∧ ¬ jsTruthy m.processed)
    (h1 : env.generate (firstRequest m.text) = .ok r)
    (hp : getParts r = .ok none) :
    handleAdded env docId m =
      [Event.markProcessed docId, Event.modelCall (firstRequest m.text)]
  ∧ (getParts r = .ok none ↔
      r.candidates = none ∨
      ∃ c cs, r.candidates = some (c :: cs) ∧
        (c.content = none ∨ ∃ ct, c.content = some ct ∧ ct.parts = none)) := by
  constructor
  · rw [handleAdded_qualifying env docId m hq, h1]
    simp [afterFirst, hp, afterGuard, withParts]
  · constructor
    · intro h
      rcases r with ⟨cands, rtext⟩
      match cands with
      | none => exact Or.inl rfl
      | some [] => simp [getParts] at h
      | some (c :: cs) =>
        rcases c with ⟨ct⟩
        match ct with
        | none => exact Or.inr ⟨⟨none⟩, cs, rfl, Or.inl rfl⟩
        | some content =>
          rcases content with ⟨ps⟩
          match ps with
          | none => exact Or.inr ⟨⟨some ⟨none⟩⟩, cs, rfl, Or.inr ⟨⟨none⟩, rfl, rfl⟩⟩
          | some l => simp [getParts] at h
    · intro h
      rcases h with h | ⟨c, cs, hc, h⟩
      · simp [getParts, h]
      · rcases h with h | ⟨ct, hct, hps⟩
        · simp [getParts, hc, h]
        · simp [getParts, hc, hct, hps]

theorem c5_missing_structure_drops_witness :
    handleAdded envNoCandidates "d1" userMsg =
      [Event.markProcessed "d1", Event.modelCall (firstRequest userMsg.text)] :=
  (c5_missing_structure_drops envNoCandidates "d1" userMsg
    { candidates := none, text := some "ignored" } (by decide) rfl rfl).1

/-! ### Claim C9 -/

/-- Claim C9: a falsy final reply (undefined or empty text, on either
the no-tool path or after the second call) produces no log append at
all: the success path silently drops the reply. -/
theorem c9_falsy_reply_dropped (env : Env) (docId : String) (m : MessageData)
    (r : ModelResponse) (parts : List Part)
    (hq : m.role = "user" ∧ ¬ jsTruthy m.processed)
    (h1 : env.generate (firstRequest m.text) = .ok r)
    (hp : getParts r = .ok (some parts)) :
    (parts.filterMap Part.functionCall = [] → (r.text = none ∨ r.text = some "") →
      handleAdded env docId m =
        [Event.markProcessed docId, Event.modelCall (firstRequest m.text)])
  ∧ (∀ s : ModelResponse, parts.filterMap Part.functionCall ≠ [] →
      env.generate (secondRequest m.text parts
        (toolOutputs env (parts.filterMap Part.functionCall))) = .ok s →
      (s.text = none ∨ s.text = some "") →
      handleAdded env docId m =
        Event.markProcessed docId ::
        Event.modelCall (firstRequest m.text) ::
        toolEvents env (parts.filterMap Part.functionCall) ++
        [Event.modelCall (secondRequest m.text parts
           (toolOutputs env (parts.filterMap Part.functionCall)))]) := by
  constructor
  · intro hfc ht
    rw [handleAdded_noToolPath env docId m r parts hq h1 hp hfc]
    rcases ht with h | h <;> simp [replyWrite, h]
  · intro s hfc h2 ht
    rw [handleAdded_toolPath env docId m r parts hq h1 hp hfc, h2]
    rcases ht with h | h <;> simp [afterSecond, replyWrite, h]

theorem c9_falsy_reply_dropped_witness :
    handleAdded envFalsyText "d1" userMsg =
      [Event.markProcessed "d1", Event.modelCall (firstRequest userMsg.text)] :=
  (c9_falsy_reply_dropped envFalsyText "d1" userMsg
    { candidates := some [{ content := some { parts := some [] } }], text := none }
    [] (by decide) rfl rfl).1 rfl (Or.inl rfl)

/-! ### Claim C2 -/

/-- Claim C2: with function calls in the first response, the handler
runs the Tool Executor once per call in order (one tagged
function-response part per call), issues a second model call whose
history is exactly the user text, the first response's parts and the
tool outputs, and appends the second call's text as the final reply. -/
theorem c2_tool_loop_second_call (env : Env) (docId : String) (m : MessageData)
    (r : ModelResponse) (parts : List Part) (s : ModelResponse) (t : String)
    (hq : m.role = "user" ∧ ¬ jsTruthy m.processed)
    (h1 : env.generate (firstRequest m.text) = .ok r)
    (hp : getParts r = .ok (some parts))
    (hfc : parts.filterMap Part.functionCall ≠ [])
    (h2 : env.generate (secondRequest m.text parts
      (toolOutputs env (parts.filterMap Part.functionCall))) = .ok s)
    (ht : s.text = some t) (hne : t ≠ "") :
    handleAdded env docId m =
      Event.markProcessed docId ::
      Event.modelCall (firstRequest m.text) ::
      toolEvents env (parts.filterMap Part.functionCall) ++
      [Event.modelCall (secondRequest m.text parts
         (toolOutputs env (parts.filterMap Part.functionCall))),
       Event.logAdd { text := t, role := "model",
                      createdAt := StampValue.fromClientClock env.now,
                      relatedToMessageId := some docId }]
  ∧ toolEvents env (parts.filterMap Part.functionCall) =
      ((parts.filterMap Part.functionCall).map (toolReqEvents env)).flatten
  ∧ toolOutputs env (parts.filterMap Part.functionCall) =
      (parts.filterMap Part.functionCall).map (toolOutputPart env)
  ∧ (secondRequest m.text parts
      (toolOutputs env (parts.filterMap Part.functionCall))).contents =
      [{ role := "user", parts := [{ text := some m.text }] },
       { role := "model", parts := parts },
       { role := "function",
         parts := toolOutputs env (parts.filterMap Part.functionCall) }] := by
  refine ⟨?_, (runToolLoop_spec env _).1, (runToolLoop_spec env _).2, rfl⟩
  rw [handleAdded_toolPath env docId m r parts hq h1 hp hfc, h2]
  simp [afterSecond, ht, replyWrite, hne]

theorem c2_tool_loop_second_call_witness :
    handleAdded envTool "d1" userMsg =
      Event.markProcessed "d1" ::
      Event.modelCall (firstRequest userMsg.text) ::
      toolEvents envTool ([fcPart].filterMap Part.functionCall) ++
      [Event.modelCall (secondRequest userMsg.text [fcPart]
         (toolOutputs envTool ([fcPart].filterMap Part.functionCall))),
       Event.logAdd { text := "done", role := "model",
                      createdAt := StampValue.fromClientClock 0,
                      relatedToMessageId := some "d1" }] :=
  (c2_tool_loop_second_call envTool "d1" userMsg fcResponse [fcPart]
    (okTextResponse "done") "done" (by decide) rfl rfl (by decide) rfl rfl
    (by decide)).1

/-! ### Claim C8 -/

/-- Every event of the tool loop is an outbound HTTP request, never a
log append. -/
theorem toolEvents_no_logAdd (env : Env) (calls : List FunctionCall) :
    ∀ e ∈ toolEvents env calls, ∀ entry : NewEntry, e ≠ Event.logAdd entry := by
  induction calls with
  | nil =>
    intro e he
    simp [toolEvents, runToolLoop] at he
  | cons c rest ih =>
    intro e he entry
    have he' : e ∈ toolReqEvents env c ++ (runToolLoop env rest).1 := by
      simpa [toolEvents, runToolLoop] using he
    rcases List.mem_append.mp he' with h | h
    · obtain ⟨req, _, rfl⟩ := List.mem_map.mp h
      simp
    · exact ih e h entry

/-- Every entry appended by the final write step carries the bridge
process's clock value. -/
theorem replyWrite_clock (env : Env) (docId : String) (o : Option String) :
    ∀ e ∈ replyWrite env docId o, ∀ entry : NewEntry, e = Event.logAdd entry →
      entry.createdAt = StampValue.fromClientClock env.now := by
  intro e he entry hee
  match o with
  | none => simp [replyWrite] at he
  | some s =>
    by_cases hs : s = ""
    · simp [replyWrite, hs] at he
    · rw [replyWrite, if_neg hs] at he
      have := List.mem_singleton.mp he
      subst this
      injection hee with h
      rw [← h]

/-- Every entry appended after the second model call carries the
bridge process's clock value. -/
theorem afterSecond_clock (env : Env) (docId : String)
    (x : Except String ModelResponse) :
    ∀ e ∈ afterSecond env docId x, ∀ entry : NewEntry, e = Event.logAdd entry →
      entry.createdAt = StampValue.fromClientClock env.now := by
  intro e he entry hee
  match x with
  | .error msg =>
    have := List.mem_singleton.mp he
    subst this
    injection hee with h
    rw [← h]
    rfl
  | .ok second => exact replyWrite_clock env docId second.text e he entry hee

/-- Every entry appended after the first model call carries the bridge
process's clock value. -/
theorem afterFirst_clock (env : Env) (docId : String) (userText : String)
    (x : Except String ModelResponse) :
    ∀ e ∈ afterFirst env docId userText x, ∀ entry : NewEntry, e = Event.logAdd entry →
      entry.createdAt = StampValue.fromClientClock env.now := by
  intro e he entry hee
  match x with
  | .error msg =>
    have := List.mem_singleton.mp he
    subst this
    injection hee with h
    rw [← h]
    rfl
  | .ok r =>
    rw [afterFirst] at he
    match hg : getParts r with
    | .error msg =>
      rw [hg] at he
      have := List.mem_singleton.mp (by simpa [afterGuard] using he)
      subst this
      injection hee with h
      rw [← h]
      rfl
    | .ok none =>
      rw [hg] at he
      simp [afterGuard, withParts] at he
    | .ok (some parts) =>
      rw [hg] at he
      have he' : e ∈ withParts env docId userText r (some parts) := by
        simpa [afterGuard] using he
      rw [withParts] at he'
      by_cases hlen : (parts.filterMap Part.functionCall).length > 0
      · rw [if_pos hlen] at he'
        rcases List.mem_append.mp he' with h | h
        · exact absurd hee (toolEvents_no_logAdd env _ e h entry)
        · rcases List.mem_cons.mp h with h | h
          · subst h
            exact absurd hee (by simp)
          · exact afterSecond_clock env docId _ e h entry hee
      · rw [if_neg hlen] at he'
        exact replyWrite_clock env docId r.text e he' entry hee

/-- Claim C8 counterexample: on a concrete successful run, the
appended model entry's createdAt is the bridge process's own clock
value (`new Date()`), which is not the server-assigned timestamp the
claim requires. -/
theorem c8_server_timestamp_counterexample :
    Event.logAdd { text := "hi", role := "model",
                   createdAt := StampValue.fromClientClock 5,
                   relatedToMessageId := some "d1" }
      ∈ handleAdded envClock5 "d1" userMsg
  ∧ StampValue.fromClientClock 5 ≠ StampValue.serverAssigned := by
  decide

/-- Claim C8 amended: every model-role entry appended by the bridge
(normal reply or fallback apology) carries a createdAt taken from the
bridge process's own clock at write time (`new Date()`), not a
server-assigned timestamp. -/
theorem c8_client_clock_timestamp (env : Env) (docId : String) (m : MessageData) :
    ∀ e ∈ handleAdded env docId m, ∀ entry : NewEntry, e = Event.logAdd entry →
      entry.createdAt = StampValue.fromClientClock env.now := by
  intro e he entry hee
  by_cases h : m.role = "user" ∧ ¬ jsTruthy m.processed
  · rw [handleAdded_qualifying env docId m h] at he
    rcases List.mem_cons.mp he with h1 | h1
    · subst h1
      exact absurd hee (by simp)
    · rcases List.mem_cons.mp h1 with h2 | h2
      · subst h2
        exact absurd hee (by simp)
      · exact afterFirst_clock env docId m.text _ e h2 entry hee
  · rw [handleAdded_of_not_qualifying env docId m h] at he
    exact absurd he (List.not_mem_nil _)

theorem c8_client_clock_timestamp_witness :
    ({ text := "hi", role := "model", createdAt := StampValue.fromClientClock 5,
       relatedToMessageId := some "d1" } : NewEntry).createdAt =
      StampValue.fromClientClock 5 :=
  c8_client_clock_timestamp envClock5 "d1" userMsg
    (Event.logAdd { text := "hi", role := "model",
                    createdAt := StampValue.fromClientClock 5,
                    relatedToMessageId := some "d1" })
    (by decide) _ rfl

end TuitionAgent
